import Mathlib

/-!
Shallow embedding of `src/dashboard.py` (healthcare equity dashboard).

The script fetches FHIR patient/condition bundles, assigns each patient to a
demographic group, inner-joins patients with conditions, builds a per-condition
contingency table of distinct-patient counts, filters it by `MIN_CASES`, and
computes a risk ratio per surviving condition.

Modelling conventions:
* Python strings are Lean `String`s; `str.strip()` / `str.lower()` are modelled
  over the ASCII range (the only range the dashboard's literals exercise) by
  `pyStrip` / `pyLower` below.
* JSON objects are structures with `Option` fields (`none` = absent key);
  `dict.get(k, d)` becomes `Option.getD`.  Python's `lst[0]` applied to the
  defaulted value `[{}]` is modelled by `List.headD`; on a present-but-empty
  list the Python would raise `IndexError`, a case no claim touches.
* The HTTP transport is a parameter `server : String → Except String α`:
  `.error e` models a raised `requests` exception with message `e`.
* `pandas` DataFrames are lists of records; `nunique` is `List.dedup.length`;
  `pd.merge(..., how="inner")` is the list inner join `mergeTables`.
* Python's `round(x, 2)` on floats is modelled by exact rational rounding to
  two decimal places (`round2`); the claims compare two expressions rounded by
  the same function, so the tie-breaking mode is immaterial.
-/

/-- ASCII whitespace test matching Python's `str.strip()` default set
(space, tab, newline, carriage return, vertical tab, form feed). -/
def pyIsSpace (c : Char) : Bool :=
  c.toNat = 32 || c.toNat = 9 || c.toNat = 10 || c.toNat = 13 ||
  c.toNat = 11 || c.toNat = 12

/-- ASCII lower-casing of one character, as Python's `str.lower()` acts on
the dashboard's data: `A`..`Z` shift by 32, everything else is unchanged. -/
def pyLowerChar (c : Char) : Char :=
  if 65 ≤ c.toNat ∧ c.toNat ≤ 90 then Char.ofNat (c.toNat + 32) else c

/-- Strip `pyIsSpace` characters from both ends of a character list. -/
def pyStripList (l : List Char) : List Char :=
  ((l.dropWhile pyIsSpace).reverse.dropWhile pyIsSpace).reverse

/-- Python `s.strip()`. -/
def pyStrip (s : String) : String :=
  ⟨pyStripList s.data⟩

/-- Python `s.lower()`. -/
def pyLower (s : String) : String :=
  ⟨s.data.map pyLowerChar⟩

/-- The constant `MIN_CASES = 5` of `dashboard.py`. -/
def MIN_CASES : Nat := 5

/-- The constant `MAX_PAGES = 10` of `dashboard.py`. -/
def MAX_PAGES : Nat := 10

/-- Body of `_assign_group` after the local `v = str(val).strip().lower()`
has been computed. -/
def assignCore (v : String) : String :=
  if v = "white" ∨ v = "usa" ∨ v = "united states" ∨
      v = "united states of america" then "Majority"
  else if v = "unknown" ∨ v = "" then "Unknown"
  else "Minority"

/-- `_assign_group` of `dashboard.py`: map a race / country string to
`Minority` / `Majority` / `Unknown` after `str(val).strip().lower()`. -/
def assign_group (val : String) : String :=
  assignCore (pyLower (pyStrip val))

structure Coding where
  display : Option String
  code : Option String
deriving DecidableEq

structure CodeableConcept where
  coding : Option (List Coding)
deriving DecidableEq

structure Extension where
  url : Option String
  valueCodeableConcept : Option CodeableConcept
deriving DecidableEq

structure Address where
  country : Option String
deriving DecidableEq

structure HumanName where
  given : Option (List String)
  family : Option String
deriving DecidableEq

structure PatientResource where
  id : Option String
  name : Option (List HumanName)
  gender : Option String
  birthDate : Option String
  extension : Option (List Extension)
  address : Option (List Address)
deriving DecidableEq

structure ConditionResource where
  code : Option CodeableConcept
  clinicalStatus : Option CodeableConcept
deriving DecidableEq

structure BundleLink where
  relation : Option String
  url : Option String
deriving DecidableEq

structure BundleEntry (α : Type) where
  resource : Option α
deriving DecidableEq

structure Bundle (α : Type) where
  entry : Option (List (BundleEntry α))
  link : Option (List BundleLink)
deriving DecidableEq

/-- The constant `FHIR_BASE` of `dashboard.py` (default environment value). -/
def FHIR_BASE : String := "https://r4.smarthealthit.org"

/-- The constant `PATIENT_EP` of `dashboard.py`. -/
def PATIENT_EP : String := FHIR_BASE ++ "/Patient?_count=200"

/-- The constant `CONDITION_EP` of `dashboard.py`. -/
def CONDITION_EP : String := FHIR_BASE ++ "/Condition?patient="

/-- `_extract_race` of `dashboard.py`: display of the first `us-core-race`
extension, else `address[0].country` when the address list is non-empty
(Python truthiness of `res.get("address")`), else "Unknown". -/
def extract_race (res : PatientResource) : String :=
  match (res.extension.getD []).find?
      (fun ext => (ext.url.getD "").endsWith "us-core-race") with
  | some ext =>
      (((ext.valueCodeableConcept.getD ⟨none⟩).coding.getD
        [⟨none, none⟩]).headD ⟨none, none⟩).display.getD "Unknown"
  | none =>
      match res.address with
      | some (a :: _) => a.country.getD "Unknown"
      | _ => "Unknown"

structure PatientRow where
  id : String
  name : String
  gender : String
  birth_date : String
  race : String
  group : String
  source : String
deriving DecidableEq

/-- The `full_name` expression of `fetch_patients`:
`(" ".join(given) + " " + family).strip() or "Unknown"`. -/
def full_name_of (res : PatientResource) : String :=
  let name_info := (res.name.getD [⟨none, none⟩]).headD ⟨none, none⟩
  let stripped := pyStrip (String.intercalate " " (name_info.given.getD [])
    ++ " " ++ name_info.family.getD "")
  if stripped = "" then "Unknown" else stripped

/-- The patient record appended for one bundle entry in `fetch_patients`. -/
def patientRowOf (res : PatientResource) : PatientRow :=
  { id := res.id.getD "N/A"
    name := full_name_of res
    gender := res.gender.getD "Unknown"
    birth_date := res.birthDate.getD "Unknown"
    race := extract_race res
    group := assign_group (extract_race res)
    source := "SMART‑on‑FHIR demo" }

structure CondRow where
  patient_id : String
  condition : String
  clinical_status : String
  source : String
deriving DecidableEq

/-- The condition record appended for one bundle entry in
`fetch_conditions_for_patient`. -/
def condRowOf (pid : String) (res : ConditionResource) : CondRow :=
  { patient_id := pid
    condition := (((res.code.getD ⟨none⟩).coding.getD
      [⟨none, none⟩]).headD ⟨none, none⟩).display.getD "Unknown"
    clinical_status := (((res.clinicalStatus.getD ⟨none⟩).coding.getD
      [⟨none, none⟩]).headD ⟨none, none⟩).code.getD "Unknown"
    source := "SMART‑on‑FHIR demo" }

/-- The `url = next((lnk.get("url") for lnk in bundle.get("link", []) if
lnk.get("relation") == "next"), None)` step of `fetch_patients`. -/
def next_url {α : Type} (bundle : Bundle α) : Option String :=
  ((bundle.link.getD []).find?
    (fun lnk => decide (lnk.relation = some "next"))).bind
    (fun lnk => lnk.url)

/-- All patient rows extracted from one bundle (the `for entry in
bundle.get("entry", [])` loop body of `fetch_patients`). -/
def pageRows (bundle : Bundle PatientResource) : List PatientRow :=
  (bundle.entry.getD []).map
    (fun e => patientRowOf (e.resource.getD ⟨none, none, none, none, none, none⟩))

structure FetchResult where
  rows : List PatientRow
  pages : Nat
  warnings : List String
deriving DecidableEq

/-- The `while url and page < max_pages` loop of `fetch_patients`, with the
remaining page budget `max_pages - page` as fuel.  `server` models
`requests.get` followed by `raise_for_status` and `.json()`: `.error e` is a
raised exception, answered by `st.warning(f"Patient fetch error: {e}")` and
`break`.  A `none` or empty `url` is falsy and ends the loop. -/
def fetchLoop (server : String → Except String (Bundle PatientResource)) :
    Nat → Option String → List PatientRow → FetchResult
  | 0, _, rows => ⟨rows, 0, []⟩
  | _ + 1, none, rows => ⟨rows, 0, []⟩
  | fuel + 1, some u, rows =>
    if u = "" then ⟨rows, 0, []⟩
    else
      match server u with
      | .error e => ⟨rows, 0, ["Patient fetch error: " ++ e]⟩
      | .ok bundle =>
        let rest := fetchLoop server fuel (next_url bundle)
          (rows ++ pageRows bundle)
        ⟨rest.rows, rest.pages + 1, rest.warnings⟩

/-- `fetch_patients` of `dashboard.py`. -/
def fetch_patients (server : String → Except String (Bundle PatientResource))
    (max_pages : Nat) : FetchResult :=
  fetchLoop server max_pages (some PATIENT_EP) []

/-- `fetch_conditions_for_patient` of `dashboard.py`: on a request exception
the except-branch returns an empty frame and issues no warning; the second
component records the warnings shown to the user (always none here). -/
def fetch_conditions_for_patient
    (server : String → Except String (Bundle ConditionResource))
    (pid : String) : List CondRow × List String :=
  match server (CONDITION_EP ++ pid ++ "&_count=200") with
  | .error _ => ([], [])
  | .ok bundle =>
      ((bundle.entry.getD []).map
        (fun e => condRowOf pid (e.resource.getD ⟨none, none⟩)), [])

/-- `fetch_all_conditions` of `dashboard.py`: concatenate the per-patient
results (empty frames contribute nothing). -/
def fetch_all_conditions
    (server : String → Except String (Bundle ConditionResource))
    (pids : List String) : List CondRow :=
  (pids.map (fun pid => (fetch_conditions_for_patient server pid).1)).flatten

structure MergedRow where
  id : String
  name : String
  gender : String
  birth_date : String
  race : String
  group : String
  condition : String
  clinical_status : String
  patient_id : String
deriving DecidableEq

/-- `pd.merge(all_pat, all_cond, left_on="ID", right_on="Patient_ID",
how="inner")`: one output row per pair of a patient row and a condition row
with equal keys. -/
def mergeTables (pats : List PatientRow) (conds : List CondRow) :
    List MergedRow :=
  pats.flatMap (fun p =>
    (conds.filter (fun c => decide (p.id = c.patient_id))).map (fun c =>
      { id := p.id, name := p.name, gender := p.gender,
        birth_date := p.birth_date, race := p.race, group := p.group,
        condition := c.condition, clinical_status := c.clinical_status,
        patient_id := c.patient_id }))

/-- `Series.nunique`: number of distinct values. -/
def distinctCount (l : List String) : Nat := l.dedup.length

/-- One cell of `cont`: distinct `Patient_ID`s among merged rows with the
given `Condition` and `Group` (`groupby(["Condition", "Group"])["Patient_ID"]
.nunique()`, with `unstack` / `reindex` filling absent cells with 0). -/
def condGroupCount (merged : List MergedRow) (c g : String) : Nat :=
  distinctCount ((merged.filter
    (fun m => decide (m.condition = c) && decide (m.group = g))).map
    (fun m => m.patient_id))

/-- `all_pat[all_pat["Group"] == g]["ID"].nunique()`. -/
def groupTotal (pats : List PatientRow) (g : String) : Nat :=
  distinctCount ((pats.filter (fun p => decide (p.group = g))).map
    (fun p => p.id))

/-- The row index of `cont` before filtering: the distinct conditions of the
merged table. -/
def conditionsOf (merged : List MergedRow) : List String :=
  (merged.map (fun m => m.condition)).dedup

/-- The row index of `cont` after
`cont = cont[(cont["Minority"] >= MIN_CASES) & (cont["Majority"] >= MIN_CASES)]`. -/
def contConditions (merged : List MergedRow) : List String :=
  (conditionsOf merged).filter (fun c =>
    decide (MIN_CASES ≤ condGroupCount merged c "Minority") &&
    decide (MIN_CASES ≤ condGroupCount merged c "Majority"))

/-- `minor_tot = max(all_pat[all_pat["Group"] == "Minority"]["ID"].nunique(), 1)`. -/
def minor_tot (pats : List PatientRow) : Nat :=
  max (groupTotal pats "Minority") 1

/-- `major_tot = max(all_pat[all_pat["Group"] == "Majority"]["ID"].nunique(), 1)`. -/
def major_tot (pats : List PatientRow) : Nat :=
  max (groupTotal pats "Majority") 1

/-- `round(x, 2)` modelled as exact rational rounding to 2 decimal places
(`⌊q * 100 + 1/2⌋ / 100`). -/
def round2 (q : ℚ) : ℚ := (⌊q * 100 + 1 / 2⌋ : ℚ) / 100

structure ResultRec where
  condition : String
  minority : Nat
  majority : Nat
  risk_ratio : ℚ
deriving DecidableEq

/-- The `records` list of `dashboard.py` (the results table before its
order-only `sort_values`); `rr = (row["Minority"] / minor_tot) /
(row["Majority"] / major_tot)`.  The scipy `chi2_contingency` call feeding
`p_value` is an external-library capability and is not modelled. -/
def resultsTable (pats : List PatientRow) (merged : List MergedRow) :
    List ResultRec :=
  (contConditions merged).map (fun c =>
    { condition := c
      minority := condGroupCount merged c "Minority"
      majority := condGroupCount merged c "Majority"
      risk_ratio := round2
        (((condGroupCount merged c "Minority" : ℚ) / (minor_tot pats : ℚ)) /
         ((condGroupCount merged c "Majority" : ℚ) / (major_tot pats : ℚ))) })

inductive DisplayOutcome where
  | errorStop (msg : String)
  | report (results : List ResultRec)
deriving DecidableEq

/-- The `if merged.empty: st.error(...); st.stop()` guard of `dashboard.py`
and, when it does not fire, the disparity analysis that follows it. -/
def displayStage (pats : List PatientRow) (merged : List MergedRow) :
    DisplayOutcome :=
  if merged = [] then
    DisplayOutcome.errorStop "No data available for visualisation."
  else DisplayOutcome.report (resultsTable pats merged)

/-- Concrete patient row used to instantiate the theorems below. -/
def wPat (pid grp : String) : PatientRow :=
  { id := pid, name := "Pat", gender := "female", birth_date := "2000-01-01",
    race := grp, group := grp, source := "Synthea CSV" }

/-- Concrete condition row used to instantiate the theorems below. -/
def wCond (pid cond : String) : CondRow :=
  { patient_id := pid, condition := cond, clinical_status := "active",
    source := "Synthea CSV" }

/-- A concrete patient table: five Minority and five Majority patients. -/
def wPats : List PatientRow :=
  [wPat "m1" "Minority", wPat "m2" "Minority", wPat "m3" "Minority",
   wPat "m4" "Minority", wPat "m5" "Minority",
   wPat "j1" "Majority", wPat "j2" "Majority", wPat "j3" "Majority",
   wPat "j4" "Majority", wPat "j5" "Majority"]

/-- A concrete condition table: "Flu" for all ten patients, "Rare" for one. -/
def wConds : List CondRow :=
  [wCond "m1" "Flu", wCond "m2" "Flu", wCond "m3" "Flu", wCond "m4" "Flu",
   wCond "m5" "Flu", wCond "j1" "Flu", wCond "j2" "Flu", wCond "j3" "Flu",
   wCond "j4" "Flu", wCond "j5" "Flu", wCond "m1" "Rare"]

/-- The merged table of the concrete dataset. -/
def wMerged : List MergedRow := mergeTables wPats wConds

/-- A patient bundle whose links carry no "next" relation. -/
def wBundleNoNext : Bundle PatientResource :=
  { entry := some [⟨some ⟨some "p1", none, none, none, none, none⟩⟩],
    link := some [⟨some "self", some PATIENT_EP⟩] }

/-- A server that always answers with `wBundleNoNext`. -/
def wServerOk : String → Except String (Bundle PatientResource) :=
  fun _ => Except.ok wBundleNoNext

/-- A patient server whose requests always fail. -/
def wErrPatServer : String → Except String (Bundle PatientResource) :=
  fun _ => Except.error "timeout"

/-- A condition server whose requests always fail. -/
def wErrCondServer : String → Except String (Bundle ConditionResource) :=
  fun _ => Except.error "timeout"

/-- A patient resource with every field absent. -/
def wEmptyPatient : PatientResource := ⟨none, none, none, none, none, none⟩

/-- A condition resource with every field absent. -/
def wEmptyCondition : ConditionResource := ⟨none, none⟩


theorem assignCore_spec (v : String) :
    (assignCore v = "Majority" ↔
      (v = "white" ∨ v = "usa" ∨ v = "united states" ∨
        v = "united states of america")) ∧
    (assignCore v = "Unknown" ↔ (v = "unknown" ∨ v = "")) ∧
    (assignCore v = "Minority" ∨ assignCore v = "Majority" ∨
      assignCore v = "Unknown") := by
  unfold assignCore
  split
  · rename_i h1
    refine ⟨by simp [h1], ⟨fun hc => absurd hc (by decide), ?_⟩,
      Or.inr (Or.inl rfl)⟩
    rintro (rfl | rfl) <;> rcases h1 with h1 | h1 | h1 | h1 <;>
      exact absurd h1 (by decide)
  · rename_i h1
    split
    · rename_i h2
      exact ⟨⟨fun hc => absurd hc (by decide), fun h => absurd h h1⟩,
        by simp [h2], Or.inr (Or.inr rfl)⟩
    · rename_i h2
      exact ⟨⟨fun hc => absurd hc (by decide), fun h => absurd h h1⟩,
        ⟨fun hc => absurd hc (by decide), fun h => absurd h h2⟩,
        Or.inl rfl⟩

lemma toNat_ofNat_valid (n : Nat) (h : n.isValidChar) :
    (Char.ofNat n).toNat = n := by
  simp [Char.ofNat, h, Char.ofNatAux, Char.toNat, UInt32.toNat]

lemma pyLowerChar_toNat_of_upper (c : Char)
    (h : 65 ≤ c.toNat ∧ c.toNat ≤ 90) :
    (pyLowerChar c).toNat = c.toNat + 32 := by
  have hv : (c.toNat + 32).isValidChar := Or.inl (by omega)
  unfold pyLowerChar
  rw [if_pos h]
  exact toNat_ofNat_valid _ hv

lemma pyLowerChar_of_not_upper (c : Char)
    (h : ¬(65 ≤ c.toNat ∧ c.toNat ≤ 90)) : pyLowerChar c = c := by
  unfold pyLowerChar
  rw [if_neg h]

lemma pyLowerChar_idem (c : Char) :
    pyLowerChar (pyLowerChar c) = pyLowerChar c := by
  by_cases h : 65 ≤ c.toNat ∧ c.toNat ≤ 90
  · have ht := pyLowerChar_toNat_of_upper c h
    exact pyLowerChar_of_not_upper _ (by omega)
  · rw [pyLowerChar_of_not_upper c h, pyLowerChar_of_not_upper c h]

lemma pyIsSpace_pyLowerChar (c : Char) :
    pyIsSpace (pyLowerChar c) = pyIsSpace c := by
  by_cases h : 65 ≤ c.toNat ∧ c.toNat ≤ 90
  · have ht := pyLowerChar_toNat_of_upper c h
    have h1 : pyIsSpace (pyLowerChar c) = false := by
      simp only [pyIsSpace, Bool.or_eq_false_iff, decide_eq_false_iff_not]
      omega
    have h2 : pyIsSpace c = false := by
      simp only [pyIsSpace, Bool.or_eq_false_iff, decide_eq_false_iff_not]
      omega
    rw [h1, h2]
  · rw [pyLowerChar_of_not_upper c h]

lemma dropWhile_dropWhile {α : Type} (p : α → Bool) (l : List α) :
    (l.dropWhile p).dropWhile p = l.dropWhile p := by
  induction l with
  | nil => rfl
  | cons c t ih =>
    by_cases h : p c
    · simp [List.dropWhile_cons, h, ih]
    · simp [List.dropWhile_cons, h]

lemma dropWhile_eq_self_of_prefix {α : Type} {p : α → Bool} {m q : List α}
    (hm : m.dropWhile p = m) (hq : q <+: m) : q.dropWhile p = q := by
  cases q with
  | nil => rfl
  | cons x xs =>
    obtain ⟨rest, hrest⟩ := hq
    have hx : p x = false := by
      by_contra hpx
      have hpx' : p x = true := by
        cases hp : p x
        · exact absurd hp hpx
        · rfl
      rw [← hrest, List.cons_append, List.dropWhile_cons, if_pos hpx'] at hm
      have := (List.dropWhile_sublist (l := xs ++ rest) p).length_le
      rw [hm] at this
      simp at this
    rw [List.dropWhile_cons, if_neg (by simp [hx])]

lemma pyStripList_idem (l : List Char) :
    pyStripList (pyStripList l) = pyStripList l := by
  have hmA : (l.dropWhile pyIsSpace).dropWhile pyIsSpace
      = l.dropWhile pyIsSpace := dropWhile_dropWhile _ _
  have hpref : pyStripList l <+: l.dropWhile pyIsSpace := by
    have h1 := List.dropWhile_suffix
      (l := (l.dropWhile pyIsSpace).reverse) pyIsSpace
    have h2 := List.reverse_prefix.mpr h1
    rwa [List.reverse_reverse] at h2
  have hAS : (pyStripList l).dropWhile pyIsSpace = pyStripList l :=
    dropWhile_eq_self_of_prefix hmA hpref
  show (((pyStripList l).dropWhile pyIsSpace).reverse.dropWhile
      pyIsSpace).reverse = pyStripList l
  rw [hAS]
  show ((((l.dropWhile pyIsSpace).reverse.dropWhile
      pyIsSpace).reverse).reverse.dropWhile pyIsSpace).reverse = pyStripList l
  rw [List.reverse_reverse, dropWhile_dropWhile]
  rfl

lemma pyStripList_map_lower (l : List Char) :
    pyStripList (l.map pyLowerChar) = (pyStripList l).map pyLowerChar := by
  have hfun : pyIsSpace ∘ pyLowerChar = pyIsSpace := by
    funext c
    simp [Function.comp, pyIsSpace_pyLowerChar]
  have hdw : ∀ q : List Char, (q.map pyLowerChar).dropWhile pyIsSpace
      = (q.dropWhile pyIsSpace).map pyLowerChar := by
    intro q
    rw [List.dropWhile_map, hfun]
  unfold pyStripList
  rw [hdw, ← List.map_reverse, hdw, ← List.map_reverse]

lemma map_pyLowerChar_idem (l : List Char) :
    (l.map pyLowerChar).map pyLowerChar = l.map pyLowerChar := by
  rw [List.map_map]
  congr 1
  funext c
  simp [Function.comp, pyLowerChar_idem]

lemma pyLower_pyStrip_idem (s : String) :
    pyLower (pyStrip (pyLower (pyStrip s))) = pyLower (pyStrip s) := by
  apply String.ext
  show (pyStripList ((pyStripList s.data).map pyLowerChar)).map pyLowerChar
      = (pyStripList s.data).map pyLowerChar
  rw [pyStripList_map_lower, pyStripList_idem, map_pyLowerChar_idem]

/-- C2: `_assign_group` returns "Majority" exactly when the stripped,
lower-cased value is one of "white", "usa", "united states",
"united states of america"; returns "Unknown" exactly when the stripped,
lower-cased value is "unknown" or empty; and returns "Minority" otherwise,
so its result is always one of Minority / Majority / Unknown. -/
theorem assign_group_classification (s : String) :
    (assign_group s = "Majority" ↔
      (pyLower (pyStrip s) = "white" ∨ pyLower (pyStrip s) = "usa" ∨
        pyLower (pyStrip s) = "united states" ∨
        pyLower (pyStrip s) = "united states of america")) ∧
    (assign_group s = "Unknown" ↔
      (pyLower (pyStrip s) = "unknown" ∨ pyLower (pyStrip s) = "")) ∧
    (assign_group s = "Minority" ∨ assign_group s = "Majority" ∨
      assign_group s = "Unknown") :=
  assignCore_spec (pyLower (pyStrip s))

/-- C10: `_assign_group` is invariant under stripping and lower-casing its
input: `_assign_group s = _assign_group (s.strip().lower())` for every
string `s`. -/
theorem assign_group_strip_lower_invariant (s : String) :
    assign_group s = assign_group (pyLower (pyStrip s)) := by
  show assignCore (pyLower (pyStrip s))
      = assignCore (pyLower (pyStrip (pyLower (pyStrip s))))
  rw [pyLower_pyStrip_idem]

/-- C3: the merged table has inner-join semantics: every merged row's
patient has at least one condition record with matching `Patient_ID`, and a
patient id with no condition records never appears in the merged table. -/
theorem merged_inner_join (pats : List PatientRow) (conds : List CondRow) :
    (∀ m ∈ mergeTables pats conds, ∃ c ∈ conds, c.patient_id = m.id) ∧
    (∀ pid : String, (∀ c ∈ conds, c.patient_id ≠ pid) →
      ∀ m ∈ mergeTables pats conds, m.id ≠ pid) := by
  constructor
  · intro m hm
    simp only [mergeTables, List.mem_flatMap, List.mem_map,
      List.mem_filter, decide_eq_true_eq] at hm
    obtain ⟨p, _, c, ⟨hc, hkey⟩, rfl⟩ := hm
    exact ⟨c, hc, hkey.symm⟩
  · intro pid hno m hm
    simp only [mergeTables, List.mem_flatMap, List.mem_map,
      List.mem_filter, decide_eq_true_eq] at hm
    obtain ⟨p, _, c, ⟨hc, hkey⟩, rfl⟩ := hm
    intro hid
    exact hno c hc (hkey ▸ hid)

/-- C8: when the merged table is empty the script shows the error message
"No data available for visualisation." and stops: no results report is
produced. -/
theorem empty_merged_early_stop (pats : List PatientRow)
    (merged : List MergedRow) (h : merged = []) :
    displayStage pats merged
      = DisplayOutcome.errorStop "No data available for visualisation." ∧
    ∀ results : List ResultRec,
      displayStage pats merged ≠ DisplayOutcome.report results := by
  subst h
  refine ⟨rfl, fun results hcon => ?_⟩
  simp [displayStage] at hcon

/-- C7: resources with missing fields get defaults: a missing patient id
becomes "N/A"; missing gender, birth date, full name, race (no race
extension and no address), condition display and clinical status each
become "Unknown". -/
theorem missing_field_defaults (res : PatientResource)
    (cres : ConditionResource) (pid : String) :
    (res.id = none → (patientRowOf res).id = "N/A") ∧
    (res.gender = none → (patientRowOf res).gender = "Unknown") ∧
    (res.birthDate = none → (patientRowOf res).birth_date = "Unknown") ∧
    (res.name = none → (patientRowOf res).name = "Unknown") ∧
    (res.extension = none → res.address = none →
      extract_race res = "Unknown") ∧
    (cres.code = none → (condRowOf pid cres).condition = "Unknown") ∧
    (cres.clinicalStatus = none →
      (condRowOf pid cres).clinical_status = "Unknown") := by
  refine ⟨fun h => ?_, fun h => ?_, fun h => ?_, fun h => ?_,
    fun h1 h2 => ?_, fun h => ?_, fun h => ?_⟩
  · simp [patientRowOf, h]
  · simp [patientRowOf, h]
  · simp [patientRowOf, h]
  · simp [patientRowOf, full_name_of, h]
    decide
  · simp [extract_race, h1, h2]
  · simp [condRowOf, h]
  · simp [condRowOf, h]

lemma fetchLoop_pages_le
    (server : String → Except String (Bundle PatientResource))
    (fuel : Nat) (url : Option String) (rows : List PatientRow) :
    (fetchLoop server fuel url rows).pages ≤ fuel := by
  induction fuel generalizing url rows with
  | zero => simp [fetchLoop]
  | succ n ih =>
    cases url with
    | none => simp [fetchLoop]
    | some u =>
      by_cases hu : u = ""
      · simp [fetchLoop, hu]
      · cases hs : server u with
        | error e => simp [fetchLoop, hu, hs]
        | ok bundle =>
          simp only [fetchLoop, if_neg hu, hs]
          exact Nat.succ_le_succ (ih _ _)

lemma fetchLoop_none
    (server : String → Except String (Bundle PatientResource))
    (fuel : Nat) (rows : List PatientRow) :
    fetchLoop server fuel none rows = ⟨rows, 0, []⟩ := by
  cases fuel <;> rfl

/-- C4: the page-fetch loop of `fetch_patients` terminates: it fetches at
most `max_pages` pages (with `MAX_PAGES = 10` the default), and as soon as a
fetched bundle has no link with relation "next" it stops after that page and
returns the rows accumulated so far. -/
theorem fetch_patients_termination
    (server : String → Except String (Bundle PatientResource))
    (max_pages fuel : Nat) (u : String) (rows : List PatientRow)
    (bundle : Bundle PatientResource) :
    (fetch_patients server max_pages).pages ≤ max_pages ∧
    MAX_PAGES = 10 ∧
    (u ≠ "" → server u = Except.ok bundle →
      (bundle.link.getD []).find?
        (fun lnk => decide (lnk.relation = some "next")) = none →
      fetchLoop server (fuel + 1) (some u) rows
        = ⟨rows ++ pageRows bundle, 1, []⟩) := by
  refine ⟨fetchLoop_pages_le server max_pages _ _, rfl, fun hu hs hnext => ?_⟩
  have hnu : next_url bundle = none := by
    simp [next_url, hnext]
  simp [fetchLoop, hu, hs, hnu, fetchLoop_none]

/-- C6 (amended): a failed patient-page request is caught, reported with the
warning "Patient fetch error: ...", stops pagination and returns the rows
gathered so far; a failed per-patient condition request is caught silently —
no warning is shown — and yields an empty result for that patient while
`fetch_all_conditions` continues with the remaining patients. -/
theorem fetch_error_handling
    (pserver : String → Except String (Bundle PatientResource))
    (cserver : String → Except String (Bundle ConditionResource))
    (fuel : Nat) (u pid e : String) (rows : List PatientRow)
    (pids : List String) :
    (u ≠ "" → pserver u = Except.error e →
      fetchLoop pserver (fuel + 1) (some u) rows
        = ⟨rows, 0, ["Patient fetch error: " ++ e]⟩) ∧
    (cserver (CONDITION_EP ++ pid ++ "&_count=200") = Except.error e →
      fetch_conditions_for_patient cserver pid = ([], []) ∧
      fetch_all_conditions cserver (pid :: pids)
        = fetch_all_conditions cserver pids) := by
  constructor
  · intro hu hs
    simp [fetchLoop, hu, hs]
  · intro hs
    have hempty : fetch_conditions_for_patient cserver pid = ([], []) := by
      simp [fetch_conditions_for_patient, hs]
    refine ⟨hempty, ?_⟩
    simp [fetch_all_conditions, hempty]

lemma distinctCount_mono {l1 l2 : List String} (h : l1 ⊆ l2) :
    distinctCount l1 ≤ distinctCount l2 := by
  unfold distinctCount
  rw [← List.card_toFinset, ← List.card_toFinset]
  apply Finset.card_le_card
  intro x hx
  rw [List.mem_toFinset] at hx ⊢
  exact h hx

lemma condGroupCount_le_groupTotal (pats : List PatientRow)
    (conds : List CondRow) (c g : String) :
    condGroupCount (mergeTables pats conds) c g ≤ groupTotal pats g := by
  unfold condGroupCount groupTotal
  apply distinctCount_mono
  intro x hx
  simp only [List.mem_map, List.mem_filter, Bool.and_eq_true,
    decide_eq_true_eq, mergeTables, List.mem_flatMap] at hx ⊢
  obtain ⟨m, ⟨⟨p, hp, c', ⟨hc', hkey⟩, rfl⟩, _, hgrp⟩, rfl⟩ := hx
  exact ⟨p, ⟨hp, hgrp⟩, hkey⟩

/-- C9: every condition in the results table has at least `MIN_CASES` (5)
distinct minority patients and at least `MIN_CASES` distinct majority
patients with it in the merged data; a condition below either threshold
never appears in the results table. -/
theorem results_min_cases (pats : List PatientRow)
    (merged : List MergedRow) :
    (∀ r ∈ resultsTable pats merged,
      MIN_CASES ≤ condGroupCount merged r.condition "Minority" ∧
      MIN_CASES ≤ condGroupCount merged r.condition "Majority") ∧
    (∀ c : String, (condGroupCount merged c "Minority" < MIN_CASES ∨
        condGroupCount merged c "Majority" < MIN_CASES) →
      ∀ r ∈ resultsTable pats merged, r.condition ≠ c) := by
  constructor
  · intro r hr
    simp only [resultsTable, List.mem_map] at hr
    obtain ⟨c, hc, rfl⟩ := hr
    have h := (List.mem_filter.mp hc).2
    simp only [Bool.and_eq_true, decide_eq_true_eq] at h
    exact h
  · intro c hlt r hr heq
    simp only [resultsTable, List.mem_map] at hr
    obtain ⟨c', hc', rfl⟩ := hr
    have h := (List.mem_filter.mp hc').2
    simp only [Bool.and_eq_true, decide_eq_true_eq] at h
    have hcc : c' = c := heq
    rw [hcc] at h
    omega

/-- C5: the risk-ratio computation never divides by zero: for a condition
surviving the `MIN_CASES` filter the clamped population totals `minor_tot`
and `major_tot` are at least 1, and the Majority prevalence term
`row["Majority"] / major_tot` is strictly positive. -/
theorem no_zero_division (pats : List PatientRow) (merged : List MergedRow)
    (c : String) (hc : c ∈ contConditions merged) :
    1 ≤ minor_tot pats ∧ 1 ≤ major_tot pats ∧
    0 < (condGroupCount merged c "Majority" : ℚ) / (major_tot pats : ℚ) := by
  refine ⟨le_max_right _ _, le_max_right _ _, ?_⟩
  have h := (List.mem_filter.mp hc).2
  simp only [Bool.and_eq_true, decide_eq_true_eq] at h
  have hb : 0 < condGroupCount merged c "Majority" := by
    have h5 := h.2
    unfold MIN_CASES at h5
    omega
  apply div_pos
  · exact_mod_cast hb
  · have h1 : (1 : Nat) ≤ major_tot pats := le_max_right _ _
    exact_mod_cast Nat.lt_of_lt_of_le Nat.zero_lt_one h1

/-- C1: every row of the results table carries
`Risk_Ratio = round2((minority-with-condition / distinct minority patients)
/ (majority-with-condition / distinct majority patients))` — the `max(_, 1)`
clamps are inactive because the `MIN_CASES` filter forces both group totals
to be at least 5. -/
theorem risk_ratio_formula (pats : List PatientRow) (conds : List CondRow)
    (r : ResultRec) (hr : r ∈ resultsTable pats (mergeTables pats conds)) :
    r.risk_ratio = round2
      (((condGroupCount (mergeTables pats conds) r.condition "Minority" : ℚ) /
        (groupTotal pats "Minority" : ℚ)) /
       ((condGroupCount (mergeTables pats conds) r.condition "Majority" : ℚ) /
        (groupTotal pats "Majority" : ℚ))) := by
  simp only [resultsTable, List.mem_map] at hr
  obtain ⟨c, hc, rfl⟩ := hr
  have h := (List.mem_filter.mp hc).2
  simp only [Bool.and_eq_true, decide_eq_true_eq] at h
  have hm : minor_tot pats = groupTotal pats "Minority" := by
    have hle := condGroupCount_le_groupTotal pats conds c "Minority"
    have h5 := h.1
    unfold MIN_CASES at h5
    exact Nat.max_eq_left (by omega)
  have hj : major_tot pats = groupTotal pats "Majority" := by
    have hle := condGroupCount_le_groupTotal pats conds c "Majority"
    have h5 := h.2
    unfold MIN_CASES at h5
    exact Nat.max_eq_left (by omega)
  dsimp only
  rw [hm, hj]

lemma wResultsTable_eq : resultsTable wPats wMerged = [⟨"Flu", 5, 5, 1⟩] := by
  have h1 : contConditions wMerged = ["Flu"] := by decide
  have h2 : condGroupCount wMerged "Flu" "Minority" = 5 := by decide
  have h3 : condGroupCount wMerged "Flu" "Majority" = 5 := by decide
  have h4 : minor_tot wPats = 5 := by decide
  have h5 : major_tot wPats = 5 := by decide
  simp [resultsTable, h1, h2, h3, h4, h5, round2]
  norm_num

/-- Witness for C1: the risk-ratio formula at the concrete ten-patient
dataset, where the "Flu" row carries risk ratio 1. -/
theorem risk_ratio_formula_witness :
    (⟨"Flu", 5, 5, 1⟩ : ResultRec) ∈ resultsTable wPats wMerged ∧
    (⟨"Flu", 5, 5, 1⟩ : ResultRec).risk_ratio = round2
      (((condGroupCount wMerged "Flu" "Minority" : ℚ) /
        (groupTotal wPats "Minority" : ℚ)) /
       ((condGroupCount wMerged "Flu" "Majority" : ℚ) /
        (groupTotal wPats "Majority" : ℚ))) := by
  have hmem : (⟨"Flu", 5, 5, 1⟩ : ResultRec)
      ∈ resultsTable wPats wMerged := by
    rw [wResultsTable_eq]
    exact List.mem_singleton.mpr rfl
  exact ⟨hmem, risk_ratio_formula wPats wConds _ hmem⟩

/-- Witness for C3: the inner-join properties at the concrete dataset: the
"m1"/"Flu" row is merged and backed by a condition record, and the unmatched
id "zz" never appears. -/
theorem merged_inner_join_witness :
    ((⟨"m1", "Pat", "female", "2000-01-01", "Minority", "Minority", "Flu",
        "active", "m1"⟩ : MergedRow) ∈ mergeTables wPats wConds ∧
      ∃ c ∈ wConds, c.patient_id = "m1") ∧
    ((∀ c ∈ wConds, c.patient_id ≠ "zz") ∧
      ∀ m ∈ mergeTables wPats wConds, m.id ≠ "zz") :=
  ⟨⟨by decide, (merged_inner_join wPats wConds).1
      ⟨"m1", "Pat", "female", "2000-01-01", "Minority", "Minority", "Flu",
        "active", "m1"⟩ (by decide)⟩,
   ⟨by decide, (merged_inner_join wPats wConds).2 "zz" (by decide)⟩⟩

/-- Witness for C4: the termination properties at a concrete one-bundle
server with no "next" link. -/
theorem fetch_patients_termination_witness :
    (fetch_patients wServerOk MAX_PAGES).pages ≤ MAX_PAGES ∧
    ("go" ≠ "" ∧ wServerOk "go" = Except.ok wBundleNoNext ∧
      (wBundleNoNext.link.getD []).find?
        (fun lnk => decide (lnk.relation = some "next")) = none) ∧
    fetchLoop wServerOk 1 (some "go") []
      = ⟨[] ++ pageRows wBundleNoNext, 1, []⟩ :=
  ⟨(fetch_patients_termination wServerOk MAX_PAGES 0 "go" [] wBundleNoNext).1,
   ⟨by decide, rfl, by decide⟩,
   (fetch_patients_termination wServerOk MAX_PAGES 0 "go" [] wBundleNoNext).2.2
     (by decide) rfl (by decide)⟩

/-- Witness for C5: the zero-division guards at the concrete dataset, for
the surviving condition "Flu". -/
theorem no_zero_division_witness :
    "Flu" ∈ contConditions wMerged ∧
    (1 ≤ minor_tot wPats ∧ 1 ≤ major_tot wPats ∧
      0 < (condGroupCount wMerged "Flu" "Majority" : ℚ) /
        (major_tot wPats : ℚ)) :=
  ⟨by decide, no_zero_division wPats wMerged "Flu" (by decide)⟩

/-- Witness for C6 (amended): failing patient and condition servers: the
patient-page failure yields the warning and stops, the condition failure
yields an empty result and the pipeline continues. -/
theorem fetch_error_handling_witness :
    ("go" ≠ "" ∧ wErrPatServer "go" = Except.error "timeout" ∧
      wErrCondServer (CONDITION_EP ++ "p1" ++ "&_count=200")
        = Except.error "timeout") ∧
    fetchLoop wErrPatServer 1 (some "go") []
      = ⟨[], 0, ["Patient fetch error: " ++ "timeout"]⟩ ∧
    fetch_conditions_for_patient wErrCondServer "p1" = ([], []) ∧
    fetch_all_conditions wErrCondServer ("p1" :: ["p2"])
      = fetch_all_conditions wErrCondServer ["p2"] :=
  ⟨⟨by decide, rfl, rfl⟩,
   (fetch_error_handling wErrPatServer wErrCondServer 0 "go" "p1" "timeout"
      [] ["p2"]).1 (by decide) rfl,
   ((fetch_error_handling wErrPatServer wErrCondServer 0 "go" "p1" "timeout"
      [] ["p2"]).2 rfl).1,
   ((fetch_error_handling wErrPatServer wErrCondServer 0 "go" "p1" "timeout"
      [] ["p2"]).2 rfl).2⟩

/-- Counterexample for C6 as stated: a per-patient condition request that
fails with a network error produces no warning at all — the except-branch of
`fetch_conditions_for_patient` returns an empty frame silently — refuting
"for every network failure during fetching ... reported as a warning". -/
theorem condition_failure_silent_counterexample :
    wErrCondServer (CONDITION_EP ++ "p1" ++ "&_count=200")
      = Except.error "timeout" ∧
    (fetch_conditions_for_patient wErrCondServer "p1").2 = [] :=
  ⟨rfl, rfl⟩

/-- Witness for C7: the defaults at a patient resource and a condition
resource with every field absent. -/
theorem missing_field_defaults_witness :
    (wEmptyPatient.id = none ∧ (patientRowOf wEmptyPatient).id = "N/A") ∧
    (patientRowOf wEmptyPatient).gender = "Unknown" ∧
    (patientRowOf wEmptyPatient).birth_date = "Unknown" ∧
    (patientRowOf wEmptyPatient).name = "Unknown" ∧
    extract_race wEmptyPatient = "Unknown" ∧
    (condRowOf "p1" wEmptyCondition).condition = "Unknown" ∧
    (condRowOf "p1" wEmptyCondition).clinical_status = "Unknown" :=
  ⟨⟨rfl, (missing_field_defaults wEmptyPatient wEmptyCondition "p1").1 rfl⟩,
   (missing_field_defaults wEmptyPatient wEmptyCondition "p1").2.1 rfl,
   (missing_field_defaults wEmptyPatient wEmptyCondition "p1").2.2.1 rfl,
   (missing_field_defaults wEmptyPatient wEmptyCondition "p1").2.2.2.1 rfl,
   (missing_field_defaults wEmptyPatient wEmptyCondition "p1").2.2.2.2.1
     rfl rfl,
   (missing_field_defaults wEmptyPatient wEmptyCondition "p1").2.2.2.2.2.1 rfl,
   (missing_field_defaults wEmptyPatient wEmptyCondition "p1").2.2.2.2.2.2 rfl⟩

/-- Witness for C8: the empty-merged guard at the empty tables. -/
theorem empty_merged_early_stop_witness :
    ([] : List MergedRow) = [] ∧
    (displayStage [] [] = DisplayOutcome.errorStop
        "No data available for visualisation." ∧
      ∀ results : List ResultRec,
        displayStage [] [] ≠ DisplayOutcome.report results) :=
  ⟨rfl, empty_merged_early_stop [] [] rfl⟩

/-- Witness for C9: the MIN_CASES filter at the concrete dataset: "Flu"
(5 and 5 distinct patients) is in the results table, "Rare" (1 and 0) is
excluded. -/
theorem results_min_cases_witness :
    ((⟨"Flu", 5, 5, 1⟩ : ResultRec) ∈ resultsTable wPats wMerged ∧
      (MIN_CASES ≤ condGroupCount wMerged "Flu" "Minority" ∧
        MIN_CASES ≤ condGroupCount wMerged "Flu" "Majority")) ∧
    ((condGroupCount wMerged "Rare" "Minority" < MIN_CASES ∨
        condGroupCount wMerged "Rare" "Majority" < MIN_CASES) ∧
      ∀ r ∈ resultsTable wPats wMerged, r.condition ≠ "Rare") := by
  have hmem : (⟨"Flu", 5, 5, 1⟩ : ResultRec)
      ∈ resultsTable wPats wMerged := by
    rw [wResultsTable_eq]
    exact List.mem_singleton.mpr rfl
  exact ⟨⟨hmem, (results_min_cases wPats wMerged).1 _ hmem⟩,
    ⟨by decide, (results_min_cases wPats wMerged).2 "Rare" (by decide)⟩⟩
